import Mathlib

/-
  Verification of the isometric-permits overlay application.

  Shallow embedding of the TypeScript sources:
    - src/coordinates.ts        : calibrated lat/lng to image-pixel projection
    - src/NeighborhoodLabels.ts : LOD label controller (tiers, per-frame draw)
    - src/App.tsx               : marker placement, recency opacity, filters, flyTo
    - src/permits.ts            : job-type constants

  JavaScript numbers are modelled as real numbers where trigonometry is
  involved (the projection) and as rationals elsewhere; all arithmetic in
  the claims stays exact in both models.  Optional values (missing fields,
  failed parses) are modelled with Option.
-/

/-! ## Definitions -/

noncomputable section

/-! ### coordinates.ts : data model -/

/-- Latitude/longitude pair, as in the seed field of MapConfig. -/
structure LatLng where
  lat : ℝ
  lng : ℝ

/-- MapConfig from types.ts.  Note that the interface has a single
view_height_meters field and no view-width-in-meters field. -/
structure MapConfig where
  seed : LatLng
  camera_azimuth_degrees : ℝ
  camera_elevation_degrees : ℝ
  width_px : ℝ
  height_px : ℝ
  view_height_meters : ℝ
  tile_step : ℝ

/-- Production configuration MAP_CONFIG from coordinates.ts. -/
def MAP_CONFIG : MapConfig :=
  { seed := { lat := 40.7484, lng := -73.9857 }
  , camera_azimuth_degrees := -15
  , camera_elevation_degrees := -45
  , width_px := 1024
  , height_px := 1024
  , view_height_meters := 300
  , tile_step := 0.5 }

/-- Pixel position, as used for SEED_PX. -/
structure Px where
  x : ℝ
  y : ℝ

/-- Calibrated seed pixel SEED_PX from coordinates.ts. -/
def SEED_PX : Px := { x := 45059, y := 43479 }

/-- Image dimensions in pixels. -/
structure Dims where
  width : ℝ
  height : ℝ

/-- IMAGE_DIMS from coordinates.ts: the assembled raster is 123904 x 100864. -/
def IMAGE_DIMS : Dims := { width := 123904, height := 100864 }

/-! ### coordinates.ts : projection -/

/-- Line 81 of coordinates.ts: metersPerPixel = view_height_meters / height_px. -/
def metersPerPixel (config : MapConfig) : ℝ :=
  config.view_height_meters / config.height_px

/-- Line 84 of coordinates.ts: northward offset from the seed in meters. -/
def deltaNorthMeters (config : MapConfig) (lat : ℝ) : ℝ :=
  (lat - config.seed.lat) * 111111.0

/-- Lines 85-86 of coordinates.ts: eastward offset from the seed in meters. -/
def deltaEastMeters (config : MapConfig) (lng : ℝ) : ℝ :=
  (lng - config.seed.lng) * 111111.0 * Real.cos (config.seed.lat * Real.pi / 180)

/-- Lines 88-100 of coordinates.ts: the rotated meter offset along the camera
right axis (shiftRightMeters = deltaRotX). -/
def shiftRightMeters (config : MapConfig) (lat lng : ℝ) : ℝ :=
  deltaEastMeters config lng * Real.cos (config.camera_azimuth_degrees * Real.pi / 180)
    - deltaNorthMeters config lat * Real.sin (config.camera_azimuth_degrees * Real.pi / 180)

/-- Lines 94-101 of coordinates.ts: the foreshortened vertical meter shift
(shiftUpMeters = -deltaRotY * sinElev). -/
def shiftUpMeters (config : MapConfig) (lat lng : ℝ) : ℝ :=
  -(deltaEastMeters config lng * Real.sin (config.camera_azimuth_degrees * Real.pi / 180)
      + deltaNorthMeters config lat * Real.cos (config.camera_azimuth_degrees * Real.pi / 180))
    * Real.sin (config.camera_elevation_degrees * Real.pi / 180)

/-- Line 103 of coordinates.ts: the X meter shift is divided by metersPerPixel. -/
def shiftXPx (config : MapConfig) (shiftRightM : ℝ) : ℝ :=
  shiftRightM / metersPerPixel config

/-- Line 104 of coordinates.ts: the Y meter shift is divided by metersPerPixel. -/
def shiftYPx (config : MapConfig) (shiftUpM : ℝ) : ℝ :=
  shiftUpM / metersPerPixel config

/-- latlngToQuadrantCoords from coordinates.ts, transcribed let for let. -/
def latlngToQuadrantCoords (config : MapConfig) (lat lng : ℝ) : ℝ × ℝ :=
  let metersPerPixel := config.view_height_meters / config.height_px
  let deltaNorthMeters := (lat - config.seed.lat) * 111111.0
  let deltaEastMeters :=
    (lng - config.seed.lng) * 111111.0 * Real.cos (config.seed.lat * Real.pi / 180)
  let azimuthRad := config.camera_azimuth_degrees * Real.pi / 180
  let cosA := Real.cos azimuthRad
  let sinA := Real.sin azimuthRad
  let deltaRotX := deltaEastMeters * cosA - deltaNorthMeters * sinA
  let deltaRotY := deltaEastMeters * sinA + deltaNorthMeters * cosA
  let elevRad := config.camera_elevation_degrees * Real.pi / 180
  let sinElev := Real.sin elevRad
  let shiftRightMeters := deltaRotX
  let shiftUpMeters := -deltaRotY * sinElev
  let shiftXPx := shiftRightMeters / metersPerPixel
  let shiftYPx := shiftUpMeters / metersPerPixel
  let quadrantStepPx := config.width_px * config.tile_step
  (shiftXPx / quadrantStepPx, -shiftYPx / quadrantStepPx)

/-- latlngToImagePx from coordinates.ts: seed pixel plus quadrant offset times 512. -/
def latlngToImagePx (lat lng : ℝ) : ℝ × ℝ :=
  let q := latlngToQuadrantCoords MAP_CONFIG lat lng
  (SEED_PX.x + q.1 * 512, SEED_PX.y + q.2 * 512)

/-- Modelled from the spec: step 4 of the spec projection algorithm converts the
X (right) meter shift to pixels with a separately calibrated constant
viewWidthMeters / referencePixelWidth.  No such field exists in the code
(MapConfig carries only view_height_meters); this definition follows the words
of the spec so it can be compared with the code. -/
def shiftXPxSpecPerAxis (viewWidthMeters referencePixelWidth shiftRightM : ℝ) : ℝ :=
  shiftRightM / (viewWidthMeters / referencePixelWidth)

/-! ### App.tsx and NeighborhoodLabels.ts : viewport adapter -/

/-- Lines 304-305 of App.tsx (placeMarkers): an image pixel is converted to an
OSD viewport point by dividing both coordinates by the image width. -/
def markerViewportPoint (imageX imageY : ℝ) : ℝ × ℝ :=
  (imageX / IMAGE_DIMS.width, imageY / IMAGE_DIMS.width)

/-- NeighborhoodLabels.toVp: project a lat/lng and normalize both axes by the
image width (lines 86-92 of NeighborhoodLabels.ts). -/
def toVp (lat lng : ℝ) : ℝ × ℝ :=
  let p := latlngToImagePx lat lng
  (p.1 / IMAGE_DIMS.width, p.2 / IMAGE_DIMS.width)

/-- Lines 355-357 of App.tsx (flyToPermit): the pan target viewport point. -/
def flyToPanTarget (imgX imgY : ℝ) : ℝ × ℝ :=
  (imgX / IMAGE_DIMS.width, imgY / IMAGE_DIMS.width)

/-! ### App.tsx : marker placement -/

/-- Parsed coordinates of one permit: the parseFloat results of the latitude
and longitude strings, where none models a missing string or a parse that
yields NaN (parseFloat of an empty string). -/
structure PermitCoords where
  latitude : Option ℝ
  longitude : Option ℝ

open Classical in
/-- Body of the per-permit loop of placeMarkers (lines 296-341 of App.tsx):
skip the permit when a coordinate fails to parse, project, skip when the
projected pixel is out of bounds, otherwise produce the overlay location. -/
def placeMarkerStep (p : PermitCoords) : Option (ℝ × ℝ) :=
  match p.latitude, p.longitude with
  | some lat, some lng =>
    let q := latlngToImagePx lat lng
    if q.1 < 0 ∨ q.1 > IMAGE_DIMS.width ∨ q.2 < 0 ∨ q.2 > IMAGE_DIMS.height then none
    else some (markerViewportPoint q.1 q.2)
  | _, _ => none

/-- placeMarkers from App.tsx: with the overlay off nothing is placed, with it
on each filtered permit is processed by placeMarkerStep. -/
def placeMarkers (overlayOn : Bool) (permits : List PermitCoords) : List (ℝ × ℝ) :=
  if overlayOn then permits.filterMap placeMarkerStep else []

end

/-! ### App.tsx : flyToPermit zoom request -/

/-- Line 359 of App.tsx: the zoom passed to viewport.zoomTo given the current
zoom, namely the current zoom when it exceeds 4 and otherwise 6. -/
def flyToZoom (currentZoom : ℚ) : ℚ :=
  if currentZoom > 4 then currentZoom else 6

/-! ### NeighborhoodLabels.ts : LOD label controller -/

/-- Label tier of one entry: borough, major neighborhood, or plain NTA. -/
inductive LabelTier
  | borough
  | major
  | nta
deriving DecidableEq

/-- One label entry: its tier, cached viewport position, current visibility
(display style not none) and current on-screen position styles. -/
structure LabelEntry where
  tier : LabelTier
  vpX : ℚ
  vpY : ℚ
  visible : Bool
  posLeft : ℚ
  posTop : ℚ
deriving DecidableEq

/-- The part of the OSD viewport the controller reads: the current zoom and
the viewport-point-to-screen-pixel transform. -/
structure Viewport where
  zoom : ℚ
  pixelFromPoint : ℚ × ℚ → ℚ × ℚ

/-- Mutable state of a NeighborhoodLabels controller: the label entries, the
currently rendered tier (-1 before the first render) and the enabled flag. -/
structure LabelsState where
  labels : List LabelEntry
  currentTier : ℤ
  enabled : Bool
deriving DecidableEq

namespace NeighborhoodLabels

/-- Line 122 of NeighborhoodLabels.ts: viewer.viewport?.getZoom() ?? 1. -/
def vpZoom (viewport : Option Viewport) : ℚ :=
  match viewport with
  | none => 1
  | some v => v.zoom

/-- Lines 123-126 of NeighborhoodLabels.ts: classify a zoom value into a tier. -/
def tierOf (zoom : ℚ) : ℤ :=
  if zoom < 1.5 then 0 else if zoom < 4 then 1 else 2

/-- Lines 132-135 of NeighborhoodLabels.ts: whether a label of the given label
tier is shown at the given zoom tier. -/
def showAtTier (tier : ℤ) (lt : LabelTier) : Bool :=
  (tier == 0 && lt == LabelTier.borough) ||
  (tier == 1 && (lt == LabelTier.borough || lt == LabelTier.major)) ||
  (tier == 2)

/-- NeighborhoodLabels.draw (lines 142-154): when enabled and a viewport
exists, rewrite the on-screen position of every visible label from its cached
viewport point; otherwise do nothing. -/
def draw (viewport : Option Viewport) (s : LabelsState) : LabelsState :=
  if s.enabled then
    match viewport with
    | none => s
    | some v =>
      { s with labels := s.labels.map fun l =>
          if l.visible then
            let px := v.pixelFromPoint (l.vpX, l.vpY)
            { l with posLeft := px.1, posTop := px.2 }
          else l }
  else s

/-- NeighborhoodLabels.updateTier (lines 121-140): read the zoom (defaulting
to 1 without a viewport), classify it, return unchanged on an equal tier, and
otherwise store the tier, retoggle every label visibility and draw. -/
def updateTier (viewport : Option Viewport) (s : LabelsState) : LabelsState :=
  let zoom := vpZoom viewport
  let tier := tierOf zoom
  if tier = s.currentTier then s
  else
    draw viewport
      { s with currentTier := tier
             , labels := s.labels.map fun l => { l with visible := showAtTier tier l.tier } }

end NeighborhoodLabels

/-! ### App.tsx : recency opacity -/

/-- Date fields of one permit, as parsed timestamps: some t models a date
string whose Date parse is the time t, none a missing date string. -/
structure PermitDates where
  issued_date : Option ℚ
  approved_date : Option ℚ
deriving DecidableEq

/-- Line 198 of App.tsx: permit.issued_date ?? permit.approved_date. -/
def permitTime (p : PermitDates) : Option ℚ :=
  p.issued_date.orElse fun _ => p.approved_date

/-- getRecencyOpacity from App.tsx (lines 196-208).  The result none models
the NaN produced when the times list is empty (Math.min of no arguments). -/
def getRecencyOpacity (permit : PermitDates) (permits : List PermitDates) : Option ℚ :=
  match permitTime permit with
  | none => some 1
  | some t =>
    if permits.length ≤ 1 then some 1
    else
      match (permits.filterMap permitTime).min?, (permits.filterMap permitTime).max? with
      | some mn, some mx =>
        if mx = mn then some 1 else some (1/4 + 3/4 * ((t - mn) / (mx - mn)))
      | _, _ => none

/-! ### permits.ts and App.tsx : filters -/

/-- ALL_JOB_TYPES from permits.ts line 198. -/
def ALL_JOB_TYPES : List String :=
  ["NB", "DM", "GC", "PL", "ME", "SOL", "SHD", "SCF", "FNC", "STR", "FND", "SG"]

/-- ALL_BOROUGHS from permits.ts line 199. -/
def ALL_BOROUGHS : List String :=
  ["MANHATTAN", "BROOKLYN", "QUEENS", "BRONX", "STATEN ISLAND"]

/-- FilterState from types.ts: selected job types, selected boroughs and the
date range in days. -/
structure FilterState where
  jobTypes : Finset String
  boroughs : Finset String
  daysBack : ℤ
deriving DecidableEq

/-- Lines 225-229 of App.tsx: the initial filter state selects every job type
and every borough. -/
def initialFilters : FilterState :=
  { jobTypes := ALL_JOB_TYPES.toFinset
  , boroughs := ALL_BOROUGHS.toFinset
  , daysBack := 1 }

/-- toggleJobType from App.tsx (lines 362-366): remove the code when present,
add it otherwise. -/
def toggleJobType (jt : String) (s : FilterState) : FilterState :=
  { s with jobTypes := if jt ∈ s.jobTypes then s.jobTypes.erase jt else insert jt s.jobTypes }

/-- toggleBorough from App.tsx (lines 368-372). -/
def toggleBorough (b : String) (s : FilterState) : FilterState :=
  { s with boroughs := if b ∈ s.boroughs then s.boroughs.erase b else insert b s.boroughs }

/-- Filter states reachable from the initial state by the chip toggles the UI
offers: job-type chips for members of ALL_JOB_TYPES and borough chips for
members of ALL_BOROUGHS. -/
inductive ReachableFilters : FilterState → Prop
  | init : ReachableFilters initialFilters
  | jobType {s : FilterState} (jt : String) (hjt : jt ∈ ALL_JOB_TYPES)
      (h : ReachableFilters s) : ReachableFilters (toggleJobType jt s)
  | borough {s : FilterState} (b : String) (hb : b ∈ ALL_BOROUGHS)
      (h : ReachableFilters s) : ReachableFilters (toggleBorough b s)

/-- Category fields of one permit as read by the filter predicate. -/
structure PermitCat where
  job_type : Option String
  borough : Option String
deriving DecidableEq

/-- Line 232 of App.tsx: p.job_type?.toUpperCase() ?? the OTHER fallback. -/
def normalizedJobType (p : PermitCat) : String :=
  (p.job_type.map String.toUpper).getD "OTHER"

/-- Line 233 of App.tsx: p.borough?.toUpperCase() ?? the empty string. -/
def normalizedBorough (p : PermitCat) : String :=
  (p.borough.map String.toUpper).getD ""

/-- Lines 231-237 of App.tsx: the predicate of filteredPermits. -/
def permitMatches (filters : FilterState) (p : PermitCat) : Bool :=
  let jt := normalizedJobType p
  let b := normalizedBorough p
  (decide (jt ∈ filters.jobTypes)
      || (!(ALL_JOB_TYPES.contains jt) && decide ("OTHER" ∈ filters.jobTypes)))
    && decide (b ∈ filters.boroughs)

/-- filteredPermits from App.tsx: permits.filter over the predicate. -/
def filteredPermits (filters : FilterState) (permits : List PermitCat) : List PermitCat :=
  permits.filter (permitMatches filters)

/-! ## Helper lemmas -/

/-- Evaluation of the projection at the seed point: every offset vanishes. -/
lemma latlngToImagePx_seed : latlngToImagePx 40.7484 (-73.9857) = (45059, 43479) := by
  unfold latlngToImagePx latlngToQuadrantCoords MAP_CONFIG SEED_PX
  norm_num

/-- Decomposition of latlngToQuadrantCoords into its named stages. -/
lemma latlngToQuadrantCoords_decomp (config : MapConfig) (lat lng : ℝ) :
    latlngToQuadrantCoords config lat lng =
      (shiftXPx config (shiftRightMeters config lat lng) / (config.width_px * config.tile_step),
       -shiftYPx config (shiftUpMeters config lat lng) / (config.width_px * config.tile_step)) :=
  rfl

/-- The minimum of a rational list is at most its maximum. -/
lemma list_min?_le_max? (l : List ℚ) (mn mx : ℚ)
    (h1 : l.min? = some mn) (h2 : l.max? = some mx) : mn ≤ mx := by
  have hmem : mn ∈ l := List.min?_mem (fun a b => min_choice a b) h1
  exact (List.max?_le_iff (fun a b c => max_le_iff) h2 (x := mx)).mp le_rfl mn hmem

/-- Drawing without a viewport changes nothing. -/
lemma draw_none (s : LabelsState) : NeighborhoodLabels.draw none s = s := by
  unfold NeighborhoodLabels.draw
  by_cases h : s.enabled <;> simp [h]

/-- Characterization of tier 0. -/
lemma tierOf_iff_zero (z : ℚ) : NeighborhoodLabels.tierOf z = 0 ↔ z < 1.5 := by
  unfold NeighborhoodLabels.tierOf
  split_ifs with h1 h2 <;> simp_all <;> linarith

/-- Characterization of tier 1. -/
lemma tierOf_iff_one (z : ℚ) : NeighborhoodLabels.tierOf z = 1 ↔ (1.5 ≤ z ∧ z < 4) := by
  unfold NeighborhoodLabels.tierOf
  split_ifs with h1 h2 <;> simp_all <;> constructor <;> intro h <;> linarith

/-- Characterization of tier 2. -/
lemma tierOf_iff_two (z : ℚ) : NeighborhoodLabels.tierOf z = 2 ↔ 4 ≤ z := by
  unfold NeighborhoodLabels.tierOf
  split_ifs with h1 h2 <;> simp_all <;> linarith

/-- The tier computed without a viewport is tier 0 (the default zoom is 1). -/
lemma tierOf_vpZoom_none : NeighborhoodLabels.tierOf (NeighborhoodLabels.vpZoom none) = 0 :=
  (tierOf_iff_zero (NeighborhoodLabels.vpZoom none)).mpr (show (1 : ℚ) < 1.5 by norm_num)

/-- Every reachable filter state keeps the selected job types inside
ALL_JOB_TYPES. -/
lemma reachable_jobTypes_subset {s : FilterState} (h : ReachableFilters s) :
    s.jobTypes ⊆ ALL_JOB_TYPES.toFinset := by
  induction h with
  | init => simp [initialFilters]
  | jobType jt hjt h ih =>
    unfold toggleJobType
    dsimp only
    split
    · exact (Finset.erase_subset _ _).trans ih
    · exact Finset.insert_subset_iff.mpr ⟨List.mem_toFinset.mpr hjt, ih⟩
  | borough b hb h ih => exact ih

/-! ## Claim theorems -/

/-- C1 counterexample: at a configuration where the two per-axis constants of
the spec calibration differ (viewWidthMeters 600 versus view_height_meters 300
over equal reference pixel sizes 1024), the code converts a right shift of 300
meters into 1024 pixels, the division by the Y constant 300/1024, and not into
the 512 pixels the per-axis X constant 600/1024 of the claim would give. -/
theorem C1_counterexample :
    shiftXPx (MapConfig.mk (LatLng.mk 0 0) 0 (-45) 1024 1024 300 0.5) 300 = 1024 ∧
    shiftXPxSpecPerAxis 600 1024 300 = 512 ∧
    shiftXPx (MapConfig.mk (LatLng.mk 0 0) 0 (-45) 1024 1024 300 0.5) 300 ≠
      shiftXPxSpecPerAxis 600 1024 300 := by
  unfold shiftXPx shiftXPxSpecPerAxis metersPerPixel
  norm_num

/-- C1 (amended): for every input the rotated meter offsets are converted to
pixels by dividing both the X and the Y shift by the single constant
view_height_meters / height_px; the two divisors are identical, so the
conversion is collapsed to one isotropic constant and no width-based meter
constant exists in the configuration. -/
theorem C1_isotropic_conversion :
    (∀ (config : MapConfig) (lat lng : ℝ),
      latlngToQuadrantCoords config lat lng =
        (shiftXPx config (shiftRightMeters config lat lng) / (config.width_px * config.tile_step),
         -shiftYPx config (shiftUpMeters config lat lng) / (config.width_px * config.tile_step))) ∧
    (∀ (config : MapConfig) (s : ℝ),
      shiftXPx config s = s / (config.view_height_meters / config.height_px) ∧
      shiftYPx config s = s / (config.view_height_meters / config.height_px)) :=
  ⟨fun config lat lng => latlngToQuadrantCoords_decomp config lat lng,
   fun _ _ => ⟨rfl, rfl⟩⟩

/-- C2: projecting the seed point (40.7484, -73.9857) under the production
configuration returns exactly the calibrated seed pixel (45059, 43479), with
zero offset in both coordinates. -/
theorem C2_seed_projects_to_seed_pixel :
    latlngToImagePx 40.7484 (-73.9857) = (45059, 43479) :=
  latlngToImagePx_seed

/-- C3: the image-pixel-to-viewport conversion divides both axes by the image
width 123904; the label conversion toVp goes through the same conversion, and
on the non-square 123904 x 100864 image the v coordinate of the bottom edge is
100864/123904, not the 1 that dividing by the height would give. -/
theorem C3_normalizes_both_axes_by_width :
    (∀ imageX imageY : ℝ,
      markerViewportPoint imageX imageY = (imageX / 123904, imageY / 123904)) ∧
    (∀ lat lng : ℝ,
      toVp lat lng =
        markerViewportPoint (latlngToImagePx lat lng).1 (latlngToImagePx lat lng).2) ∧
    IMAGE_DIMS.width = 123904 ∧ IMAGE_DIMS.height = 100864 ∧
    markerViewportPoint 0 IMAGE_DIMS.height ≠ (0, 1) := by
  refine ⟨fun _ _ => rfl, fun _ _ => rfl, rfl, rfl, fun h => ?_⟩
  unfold markerViewportPoint IMAGE_DIMS at h
  rw [Prod.mk.injEq] at h
  have h2 := h.2
  norm_num at h2

/-- C4: tier classification uses half-open intervals with inclusive lower
bounds at 1.5 and 4: zoom below 1.5 is tier 0, zoom in [1.5, 4) is tier 1,
zoom at least 4 is tier 2, and the samples 1.49, 1.5, 3.99, 4.0 map to tiers
0, 1, 1, 2. -/
theorem C4_tier_thresholds :
    (∀ zoom : ℚ, zoom < 1.5 ↔ NeighborhoodLabels.tierOf zoom = 0) ∧
    (∀ zoom : ℚ, (1.5 ≤ zoom ∧ zoom < 4) ↔ NeighborhoodLabels.tierOf zoom = 1) ∧
    (∀ zoom : ℚ, 4 ≤ zoom ↔ NeighborhoodLabels.tierOf zoom = 2) ∧
    NeighborhoodLabels.tierOf 1.49 = 0 ∧ NeighborhoodLabels.tierOf 1.5 = 1 ∧
    NeighborhoodLabels.tierOf 3.99 = 1 ∧ NeighborhoodLabels.tierOf 4 = 2 :=
  ⟨fun zoom => (tierOf_iff_zero zoom).symm,
   fun zoom => (tierOf_iff_one zoom).symm,
   fun zoom => (tierOf_iff_two zoom).symm,
   (tierOf_iff_zero 1.49).mpr (by norm_num),
   (tierOf_iff_one 1.5).mpr (by norm_num),
   (tierOf_iff_one 3.99).mpr (by norm_num),
   (tierOf_iff_two 4).mpr (by norm_num)⟩

/-- C5 counterexample: with no viewport yet and the initial currentTier -1,
updateTier is not a no-op: it performs tier-0 visibility work (the default
zoom is 1), turning a hidden borough label visible and storing tier 0. -/
theorem C5_counterexample :
    NeighborhoodLabels.updateTier none
        (LabelsState.mk [LabelEntry.mk LabelTier.borough 0 0 false 0 0] (-1) true) ≠
      LabelsState.mk [LabelEntry.mk LabelTier.borough 0 0 false 0 0] (-1) true ∧
    (NeighborhoodLabels.updateTier none
        (LabelsState.mk [LabelEntry.mk LabelTier.borough 0 0 false 0 0] (-1) true)).labels.map
        LabelEntry.visible = [true] ∧
    (NeighborhoodLabels.updateTier none
        (LabelsState.mk [LabelEntry.mk LabelTier.borough 0 0 false 0 0] (-1) true)).currentTier
      = 0 := by
  have h1 : NeighborhoodLabels.updateTier none
      (LabelsState.mk [LabelEntry.mk LabelTier.borough 0 0 false 0 0] (-1) true) =
      LabelsState.mk [LabelEntry.mk LabelTier.borough 0 0 true 0 0] 0 true := by
    unfold NeighborhoodLabels.updateTier
    dsimp only
    rw [tierOf_vpZoom_none, if_neg (by decide), draw_none]
    rfl
  refine ⟨?_, ?_, ?_⟩
  · rw [h1]
    intro h
    have hc := congrArg LabelsState.currentTier h
    simp at hc
  · rw [h1]
    rfl
  · rw [h1]

/-- C5 (amended): without a viewport, draw is a benign no-op; updateTier does
not error but treats the missing viewport as zoom 1: it is a no-op when the
stored tier is already 0 and otherwise performs the normal tier-0 visibility
work, always leaving currentTier at 0. -/
theorem C5_no_viewport_behavior :
    (∀ s : LabelsState, NeighborhoodLabels.draw none s = s) ∧
    (∀ s : LabelsState, s.currentTier = 0 → NeighborhoodLabels.updateTier none s = s) ∧
    (∀ s : LabelsState, (NeighborhoodLabels.updateTier none s).currentTier = 0) := by
  refine ⟨draw_none, ?_, ?_⟩
  · intro s h
    unfold NeighborhoodLabels.updateTier
    dsimp only
    rw [tierOf_vpZoom_none, h]
    simp
  · intro s
    unfold NeighborhoodLabels.updateTier
    dsimp only
    rw [tierOf_vpZoom_none]
    by_cases h : (0 : ℤ) = s.currentTier
    · rw [if_pos h]
      omega
    · rw [if_neg h, draw_none]

/-- C5 witness: the amended theorem applied at a concrete already-tier-0
state. -/
theorem C5_witness :
    NeighborhoodLabels.updateTier none (LabelsState.mk [] 0 true) = LabelsState.mk [] 0 true :=
  C5_no_viewport_behavior.2.1 (LabelsState.mk [] 0 true) rfl

/-- C6: when the recomputed tier equals the previously rendered tier,
updateTier returns the state unchanged: no visibility or position state is
altered and the stored tier is kept. -/
theorem C6_unchanged_tier_noop (viewport : Option Viewport) (s : LabelsState)
    (h : NeighborhoodLabels.tierOf (NeighborhoodLabels.vpZoom viewport) = s.currentTier) :
    NeighborhoodLabels.updateTier viewport s = s := by
  unfold NeighborhoodLabels.updateTier
  dsimp only
  rw [h]
  simp

/-- C6 witness: a zoom of 2 recomputes tier 1, equal to the stored tier, and
the state is returned unchanged. -/
theorem C6_witness :
    NeighborhoodLabels.updateTier (some (Viewport.mk 2 fun p => p)) (LabelsState.mk [] 1 true) =
      LabelsState.mk [] 1 true :=
  C6_unchanged_tier_noop (some (Viewport.mk 2 fun p => p)) (LabelsState.mk [] 1 true)
    ((tierOf_iff_one (NeighborhoodLabels.vpZoom (some (Viewport.mk 2 fun p => p)))).mpr
      (show (1.5 : ℚ) ≤ 2 ∧ (2 : ℚ) < 4 by norm_num))

/-- C7: with the overlay enabled the markers are exactly the filtered permits
surviving the per-permit step, and the step succeeds precisely when both
coordinates parse and the projected pixel lies inside
[0, width] x [0, height]; everything else is skipped without an error. -/
theorem C7_marker_placement_filter :
    (∀ permits : List PermitCoords,
      placeMarkers true permits = permits.filterMap placeMarkerStep) ∧
    (∀ p : PermitCoords,
      (placeMarkerStep p).isSome = true ↔
        ∃ lat lng, p.latitude = some lat ∧ p.longitude = some lng ∧
          0 ≤ (latlngToImagePx lat lng).1 ∧ (latlngToImagePx lat lng).1 ≤ IMAGE_DIMS.width ∧
          0 ≤ (latlngToImagePx lat lng).2 ∧ (latlngToImagePx lat lng).2 ≤ IMAGE_DIMS.height) := by
  refine ⟨fun _ => rfl, fun p => ?_⟩
  obtain ⟨la, lo⟩ := p
  cases la with
  | none => simp [placeMarkerStep]
  | some lat =>
    cases lo with
    | none => simp [placeMarkerStep]
    | some lng =>
      unfold placeMarkerStep
      dsimp only
      split_ifs with h
      · simp only [Option.isSome_none, Bool.false_eq_true, false_iff]
        rintro ⟨lat2, lng2, hl1, hl2, b1, b2, b3, b4⟩
        obtain rfl : lat = lat2 := Option.some.inj hl1
        obtain rfl : lng = lng2 := Option.some.inj hl2
        rcases h with h | h | h | h <;> linarith
      · push_neg at h
        simp only [Option.isSome_some, true_iff]
        exact ⟨lat, lng, rfl, rfl, le_of_not_lt (by linarith [h.1]), h.2.1, by linarith [h.2.2.1], h.2.2.2⟩

/-- C8 counterexample: with current zoom 5, flyToPermit requests zoom 5,
strictly below the configured target zoom 6, so the request is not always at
least the minimum target zoom. -/
theorem C8_counterexample : flyToZoom 5 = 5 ∧ flyToZoom 5 < 6 := by
  unfold flyToZoom
  norm_num

/-- C8 (amended): the requested zoom never zooms out (it is at least the
current zoom) and always exceeds the threshold 4; it equals the target 6
exactly when the current zoom is at most 4 and otherwise keeps the current
zoom, so for current zoom strictly between 4 and 6 the request stays below the
target 6.  The pan request is the projected viewport point of the permit. -/
theorem C8_flyTo_zoom_behavior :
    (∀ z : ℚ, z ≤ flyToZoom z ∧ 4 < flyToZoom z ∧
      (z ≤ 4 → flyToZoom z = 6) ∧ (4 < z → flyToZoom z = z)) ∧
    (∀ imgX imgY : ℝ, flyToPanTarget imgX imgY = markerViewportPoint imgX imgY) := by
  refine ⟨fun z => ?_, fun _ _ => rfl⟩
  unfold flyToZoom
  split_ifs with h
  · exact ⟨le_refl z, h, fun hz => absurd hz (not_le.mpr h), fun _ => rfl⟩
  · push_neg at h
    exact ⟨by linarith, by norm_num, fun _ => rfl, fun h4 => absurd h4 (not_lt.mpr h)⟩

/-- C8 witness: the amended theorem applied at current zoom 3 gives the
requested zoom 6. -/
theorem C8_witness : flyToZoom 3 = 6 :=
  (C8_flyTo_zoom_behavior.1 3).2.2.1 (by norm_num)

/-- C9: the recency opacity is 1 when the permit has no date, when the list
has at most one permit, or when all parseable timestamps coincide; otherwise,
for a permit with parsed time t it is 1/4 + 3/4 (t - min)/(max - min), which
lies in [1/4, 1] for t between min and max, is 1/4 at the oldest time and 1 at
the newest. -/
theorem C9_recency_opacity :
    (∀ p ps, permitTime p = none → getRecencyOpacity p ps = some 1) ∧
    (∀ p ps, ps.length ≤ 1 → getRecencyOpacity p ps = some 1) ∧
    (∀ p ps mn, (ps.filterMap permitTime).min? = some mn →
      (ps.filterMap permitTime).max? = some mn → getRecencyOpacity p ps = some 1) ∧
    (∀ p ps t mn mx, permitTime p = some t → 2 ≤ ps.length →
      (ps.filterMap permitTime).min? = some mn →
      (ps.filterMap permitTime).max? = some mx → mn ≠ mx →
      getRecencyOpacity p ps = some (1/4 + 3/4 * ((t - mn) / (mx - mn))) ∧
      (mn ≤ t → t ≤ mx →
        1/4 ≤ 1/4 + 3/4 * ((t - mn) / (mx - mn)) ∧
        1/4 + 3/4 * ((t - mn) / (mx - mn)) ≤ 1) ∧
      (t = mn → 1/4 + 3/4 * ((t - mn) / (mx - mn)) = 1/4) ∧
      (t = mx → 1/4 + 3/4 * ((t - mn) / (mx - mn)) = 1)) := by
  refine ⟨?_, ?_, ?_, ?_⟩
  · intro p ps h
    unfold getRecencyOpacity
    rw [h]
  · intro p ps h
    unfold getRecencyOpacity
    cases permitTime p with
    | none => rfl
    | some t =>
      dsimp only
      rw [if_pos h]
  · intro p ps mn hmn hmx
    unfold getRecencyOpacity
    cases permitTime p with
    | none => rfl
    | some t =>
      dsimp only
      by_cases hl : ps.length ≤ 1
      · rw [if_pos hl]
      · rw [if_neg hl, hmn, hmx]
        simp
  · intro p ps t mn mx hp hl hmn hmx hne
    have hlt : mn < mx := lt_of_le_of_ne (list_min?_le_max? _ mn mx hmn hmx) hne
    have hpos : (0 : ℚ) < mx - mn := by linarith
    refine ⟨?_, ?_, ?_, ?_⟩
    · unfold getRecencyOpacity
      rw [hp]
      dsimp only
      rw [if_neg (by omega), hmn, hmx]
      dsimp only
      rw [if_neg (fun h => hne h.symm)]
    · intro h1 h2
      constructor
      · have : 0 ≤ (t - mn) / (mx - mn) := div_nonneg (by linarith) (le_of_lt hpos)
        linarith
      · have : (t - mn) / (mx - mn) ≤ 1 := (div_le_one hpos).mpr (by linarith)
        linarith
    · intro h
      rw [h]
      simp
    · intro h
      rw [h, div_self (ne_of_gt hpos)]
      norm_num

/-- C9 witness: in a two-permit list with times 0 and 2, the permit with time
1 gets opacity 1/4 + 3/4 times one half. -/
theorem C9_witness :
    getRecencyOpacity (PermitDates.mk (some 1) none)
        [PermitDates.mk (some 0) none, PermitDates.mk (some 2) none] =
      some (1/4 + 3/4 * ((1 - 0) / (2 - 0))) := by
  have hfm : List.filterMap permitTime
      [PermitDates.mk (some 0) none, PermitDates.mk (some 2) none] = [0, 2] := rfl
  have hmn : (List.filterMap permitTime
      [PermitDates.mk (some 0) none, PermitDates.mk (some 2) none]).min? = some 0 := by
    rw [hfm, List.min?_cons]
    norm_num [List.foldl, min_def]
  have hmx : (List.filterMap permitTime
      [PermitDates.mk (some 0) none, PermitDates.mk (some 2) none]).max? = some 2 := by
    rw [hfm, List.max?_cons]
    norm_num [List.foldl, max_def]
  exact (C9_recency_opacity.2.2.2 (PermitDates.mk (some 1) none)
    [PermitDates.mk (some 0) none, PermitDates.mk (some 2) none] 1 0 2
    rfl (by norm_num) hmn hmx (by norm_num)).1

/-- C10: every filter state reachable by the UI toggles keeps the selected job
types inside ALL_JOB_TYPES, never contains OTHER, and therefore every permit
whose normalized job-type code lies outside ALL_JOB_TYPES is excluded from
filteredPermits: the OTHER fallback branch of the predicate never fires. -/
theorem C10_other_fallback_unreachable :
    ∀ s : FilterState, ReachableFilters s →
      s.jobTypes ⊆ ALL_JOB_TYPES.toFinset ∧
      "OTHER" ∉ s.jobTypes ∧
      (∀ (ps : List PermitCat) (p : PermitCat),
        normalizedJobType p ∉ ALL_JOB_TYPES → p ∉ filteredPermits s ps) := by
  intro s h
  have hsub := reachable_jobTypes_subset h
  have hoth : "OTHER" ∉ s.jobTypes := by
    intro hmem
    have := List.mem_toFinset.mp (hsub hmem)
    revert this
    decide
  refine ⟨hsub, hoth, ?_⟩
  intro ps p hjt hmem
  rw [filteredPermits, List.mem_filter] at hmem
  have hmatch := hmem.2
  unfold permitMatches at hmatch
  simp only [Bool.and_eq_true, Bool.or_eq_true, Bool.not_eq_true', decide_eq_true_eq] at hmatch
  rcases hmatch.1 with hin | ⟨-, hother⟩
  · exact hjt (List.mem_toFinset.mp (hsub hin))
  · exact hoth hother

/-- C10 witness: a permit whose missing job type normalizes to the OTHER
fallback code is dropped by the initial filter state. -/
theorem C10_witness :
    PermitCat.mk none (some "QUEENS") ∉
      filteredPermits initialFilters [PermitCat.mk none (some "QUEENS")] :=
  (C10_other_fallback_unreachable initialFilters ReachableFilters.init).2.2
    [PermitCat.mk none (some "QUEENS")]
    (PermitCat.mk none (some "QUEENS")) (by decide)
